import Mathlib

/-
Verification development for the ascnd-client-cpp repository.

The repository ships two client implementations:
* a gRPC client (src/src/client.cpp) whose retry loop consults an error
  classifier on grpc status codes, and
* an httplib/JSON client (src/client.cpp given as part_007, and the
  header-only copy in include/ascnd/client.hpp) whose retry loop retries
  only on connection errors and post-processes the HTTP response.

Both retry loops are embedded below as executable functions returning an
event trace (attempts performed and sleeps requested, in order) plus the
final Result, translated statement by statement from the source.
-/

namespace Ascnd

/-- The grpc::StatusCode enumeration used by the gRPC client. -/
inductive StatusCode where
  | OK
  | CANCELLED
  | UNKNOWN
  | INVALID_ARGUMENT
  | DEADLINE_EXCEEDED
  | NOT_FOUND
  | ALREADY_EXISTS
  | PERMISSION_DENIED
  | RESOURCE_EXHAUSTED
  | FAILED_PRECONDITION
  | ABORTED
  | OUT_OF_RANGE
  | UNIMPLEMENTED
  | INTERNAL
  | UNAVAILABLE
  | DATA_LOSS
  | UNAUTHENTICATED
deriving DecidableEq, Repr

/-- Numeric value of a grpc status code, as produced by
static_cast<int>(status.error_code()) in client.cpp. -/
def statusCodeInt : StatusCode → Int
  | .OK => 0
  | .CANCELLED => 1
  | .UNKNOWN => 2
  | .INVALID_ARGUMENT => 3
  | .DEADLINE_EXCEEDED => 4
  | .NOT_FOUND => 5
  | .ALREADY_EXISTS => 6
  | .PERMISSION_DENIED => 7
  | .RESOURCE_EXHAUSTED => 8
  | .FAILED_PRECONDITION => 9
  | .ABORTED => 10
  | .OUT_OF_RANGE => 11
  | .UNIMPLEMENTED => 12
  | .INTERNAL => 13
  | .UNAVAILABLE => 14
  | .DATA_LOSS => 15
  | .UNAUTHENTICATED => 16

/-- Embedding of AscndClient::Impl::is_retryable_error
(src/src/client.cpp lines 240-250): the switch returns true for
UNAVAILABLE, DEADLINE_EXCEEDED, RESOURCE_EXHAUSTED and ABORTED,
false in the default case. -/
def is_retryable_error : StatusCode → Bool
  | .UNAVAILABLE => true
  | .DEADLINE_EXCEEDED => true
  | .RESOURCE_EXHAUSTED => true
  | .ABORTED => true
  | _ => false

/-- Embedding of the Result<T> type from types.hpp: either a success
value, or an error message plus numeric code (0 when no code given). -/
inductive Result (α : Type) where
  | ok (v : α)
  | error (msg : String) (code : Int)
deriving DecidableEq, Repr

/-- Two-complement wrap of an integer into the 32-bit signed range,
used to model C++ int arithmetic. -/
def wrap32 (x : Int) : Int :=
  (x + 2 ^ 31) % 2 ^ 32 - 2 ^ 31

/-- The backoff delay computed at src/src/client.cpp line 221 (and
part_007 line 95): int delay = config.retry_delay_ms * (1 << retries),
evaluated in 32-bit signed arithmetic, modeled modulo 2^32 (a shift by
32 or more bits, undefined in C++, is modeled by the same wrap). -/
def delay32 (retry_delay_ms : Int) (i : Nat) : Int :=
  wrap32 (retry_delay_ms * 2 ^ i)

/-- One observable event of the retry loop: a transport attempt with its
index (the value of the retries counter), or a call to
std::this_thread::sleep_for with the given millisecond argument. -/
inductive REvent where
  | att (i : Nat)
  | sleep (d : Int)
deriving DecidableEq, Repr

/-- Whether an event is a transport attempt. -/
def REvent.isAtt : REvent → Bool
  | .att _ => true
  | .sleep _ => false

/-- Number of transport attempts recorded in an event list. -/
def attCount (evs : List REvent) : Nat :=
  (evs.filter REvent.isAtt).length

/-- Outcome of one gRPC attempt: rpc_func either returns an OK status
with a response payload, or a failing status with code and message. -/
inductive GOutcome (α : Type) where
  | ok (v : α)
  | fail (code : StatusCode) (msg : String)

/-- Trace of one make_request call: the events it performed in order and
the Result it returned. -/
structure RunTrace (α : Type) where
  events : List REvent
  result : Result α
deriving DecidableEq, Repr

/-- Loop body of AscndClient::Impl::make_request (src/src/client.cpp
lines 202-238).  The C++ loop is `while (retries <= max_retries)` over an
int counter starting at 0; it is embedded with the counter `r` as the
attempt index and `gas = max_retries + 1 - r` as the structural fuel, so
the zero-fuel case corresponds to the loop condition turning false, at
which point the function returns Result::error built from the status of
the last attempt (carried in lastMsg and lastCode). -/
def make_request_go {α : Type} (tr : Nat → GOutcome α) (max_retries : Nat)
    (retry_delay_ms : Int) : Nat → Nat → String → Int → RunTrace α
  | _, 0, lastMsg, lastCode => ⟨[], .error lastMsg lastCode⟩
  | r, gas + 1, _, _ =>
    match tr r with
    | .ok v => ⟨[.att r], .ok v⟩
    | .fail c m =>
      if is_retryable_error c then
        if r < max_retries then
          let d := delay32 retry_delay_ms r
          let rest := make_request_go tr max_retries retry_delay_ms
            (r + 1) gas m (statusCodeInt c)
          ⟨.att r :: .sleep d :: rest.events, rest.result⟩
        else
          ⟨[.att r], .error m (statusCodeInt c)⟩
      else
        ⟨[.att r], .error m (statusCodeInt c)⟩

/-- Embedding of AscndClient::Impl::make_request (src/src/client.cpp
lines 193-238): the transport `tr` gives the outcome rpc_func reports on
each attempt index; max_retries and retry_delay_ms come from the
validated config (max_retries is nonnegative after validation). -/
def make_request {α : Type} (max_retries : Nat) (retry_delay_ms : Int)
    (tr : Nat → GOutcome α) : RunTrace α :=
  make_request_go tr max_retries retry_delay_ms 0 (max_retries + 1) "" 0

/-- Expected event list for a run whose every attempt fails retryably:
g sleeps interleaved between g + 1 attempts starting at index r. -/
def expectedFailEvents (retry_delay_ms : Int) : Nat → Nat → List REvent
  | r, 0 => [.att r]
  | r, g + 1 =>
    .att r :: .sleep (delay32 retry_delay_ms r) ::
      expectedFailEvents retry_delay_ms (r + 1) g

/-! The httplib/JSON client (part_007, and the header-only copy in
include/ascnd/client.hpp). -/

/-- Model of the JSON object obtained by json::parse on an error body.
Only the two fields the error path reads are modeled; a field is `some s`
when it is present with string value s (contains(...) is then true and
get<std::string>() yields s), and `none` when absent. -/
structure ErrJson where
  message : Option String
  errorField : Option String
deriving DecidableEq, Repr

/-- An HTTP response as the loop observes it: its status code, raw body
text, and the result of json::parse on the body (`none` when the body is
not parseable JSON, in which case the parse throws). -/
structure HttpResponse where
  status : Int
  bodyText : String
  bodyJson : Option ErrJson
deriving DecidableEq, Repr

/-- Outcome of one httplib call (Post or Get): either the httplib::Result
is falsy (a connection error, carrying int(result.error()) and the text
of httplib::to_string(result.error())), or a response was received. -/
inductive ConnAttempt where
  | connErr (code : Int) (msg : String)
  | response (r : HttpResponse)

/-- How the retry loop of the httplib client terminated. -/
inductive LoopExit where
  | unsupported
  | gotResponse (r : HttpResponse)
  | exhausted (code : Int) (msg : String)

/-- Embedding of the error-message fallback chain run on a response
outside the success range (part_007 lines 122-136, client.hpp lines
359-373): parse the body; if it parses, use its message field, else its
error field, else the raw body; if the parse throws, use the raw body,
or "HTTP <status>" when the body is empty. -/
def extract_error_msg (resp : HttpResponse) : String :=
  match resp.bodyJson with
  | some j =>
    match j.message with
    | some s => s
    | none =>
      match j.errorField with
      | some s => s
      | none => resp.bodyText
  | none =>
    if resp.bodyText = "" then "HTTP " ++ toString resp.status
    else resp.bodyText

/-- The retry loop of the httplib make_request (part_007 lines 79-99):
`while (retries <= max_retries)`, one Post or Get per iteration, break on
a truthy result, early return on an unsupported method, sleep
retry_delay_ms * (1 << retries) (32-bit int) when a connection error
leaves budget.  Fuel is max_retries + 1 - r as in the gRPC loop; the
zero-fuel case is the loop condition turning false with the last
connection error carried in lastCode and lastMsg. -/
def http_loop (method : String) (tr : Nat → ConnAttempt) (max_retries : Nat)
    (retry_delay_ms : Int) : Nat → Nat → Int → String → List REvent × LoopExit
  | _, 0, lastCode, lastMsg => ([], .exhausted lastCode lastMsg)
  | r, gas + 1, _, _ =>
    if method = "POST" ∨ method = "GET" then
      match tr r with
      | .response resp => ([.att r], .gotResponse resp)
      | .connErr code msg =>
        if r < max_retries then
          let d := delay32 retry_delay_ms r
          let rest := http_loop method tr max_retries retry_delay_ms
            (r + 1) gas code msg
          (.att r :: .sleep d :: rest.1, rest.2)
        else ([.att r], .exhausted code msg)
    else ([], .unsupported)

/-- Embedding of the httplib AscndClient::Impl::make_request (part_007
lines 68-139, client.hpp lines 305-376).  After the loop: a falsy result
yields Result::error("HTTP request failed: " + to_string(error), code); a
response with status in [200, 300) is decoded (`decode` models
json::parse(body).get<ResponseT>(), its error case a thrown
json::exception with the given what() text), a decode failure yielding
Result::error("JSON parse error: " + what, status); any other status
yields Result::error(extract_error_msg, status). -/
def http_make_request {α : Type} (method : String) (tr : Nat → ConnAttempt)
    (decode : HttpResponse → Except String α) (max_retries : Nat)
    (retry_delay_ms : Int) : List REvent × Result α :=
  let run := http_loop method tr max_retries retry_delay_ms 0
    (max_retries + 1) 0 ""
  match run.2 with
  | .unsupported =>
    (run.1, .error ("Unsupported HTTP method: " ++ method) 0)
  | .exhausted code msg =>
    (run.1, .error ("HTTP request failed: " ++ msg) code)
  | .gotResponse resp =>
    if 200 ≤ resp.status ∧ resp.status < 300 then
      match decode resp with
      | .ok v => (run.1, .ok v)
      | .error e => (run.1, .error ("JSON parse error: " ++ e) resp.status)
    else
      (run.1, .error (extract_error_msg resp) resp.status)

/-- Expected event list for a run whose first k attempts (starting at
index r) are connection errors and whose next attempt gets a response:
the k failed attempts with their interleaved sleeps. -/
def expectedConnEvents (retry_delay_ms : Int) : Nat → Nat → List REvent
  | _, 0 => []
  | r, k + 1 =>
    .att r :: .sleep (delay32 retry_delay_ms r) ::
      expectedConnEvents retry_delay_ms (r + 1) k

/-! Configuration model for both client variants. -/

/-- The ClientConfig of the gRPC client, with the fields and defaults the
config tests assert in DefaultConfigValues. -/
structure GrpcClientConfig where
  server_address : String := ""
  api_key : String := ""
  use_ssl : Bool := true
  connection_timeout_ms : Int := 5000
  request_timeout_ms : Int := 10000
  max_retries : Int := 3
  retry_delay_ms : Int := 100
  user_agent : String := ""
  verbose : Bool := false
deriving DecidableEq, Repr

/-- Modelled from the spec: the body of ClientConfig::validate is not in
the sources (the gRPC variant of types.hpp/client.hpp that declares it is
missing; only its unit tests in config_test.cpp and its caller in
src/src/client.cpp remain).  Per the spec, the endpoint identity must be
non-empty, both timeouts strictly positive, and retry count and delay
non-negative, each violation raising std::invalid_argument; the exception
is modeled as Except.error carrying the what() text the tests assert. -/
def GrpcClientConfig.validate (cfg : GrpcClientConfig) : Except String Unit :=
  if cfg.server_address = "" then
    .error "server_address cannot be empty"
  else if cfg.connection_timeout_ms ≤ 0 then
    .error "connection_timeout_ms must be positive"
  else if cfg.request_timeout_ms ≤ 0 then
    .error "request_timeout_ms must be positive"
  else if cfg.max_retries < 0 then
    .error "max_retries cannot be negative"
  else if cfg.retry_delay_ms < 0 then
    .error "retry_delay_ms cannot be negative"
  else
    .ok ()

/-- State of a fully constructed AscndClient::Impl (gRPC variant): the
stored config copy and the established channel (abstracted to the fact
that init_channel ran). -/
structure ImplState where
  config : GrpcClientConfig
  channelBuilt : Bool
deriving DecidableEq, Repr

/-- Embedding of AscndClient::Impl::Impl (src/src/client.cpp lines
100-114): the constructor stores the config, calls config.validate()
(which throws std::invalid_argument on invalid config, aborting
construction before any transport state exists), then init_channel().
A thrown exception is modeled as Except.error: no ImplState is produced. -/
def Impl.construct (cfg : GrpcClientConfig) : Except String ImplState := do
  cfg.validate
  pure { config := cfg, channelBuilt := true }

/-- The configuration conditions the claim calls invalid: empty server
address, non-positive connection timeout, non-positive request timeout,
negative max_retries, or negative retry_delay_ms. -/
def invalidConfig (cfg : GrpcClientConfig) : Prop :=
  cfg.server_address = "" ∨ cfg.connection_timeout_ms ≤ 0 ∨
  cfg.request_timeout_ms ≤ 0 ∨ cfg.max_retries < 0 ∨ cfg.retry_delay_ms < 0

instance (cfg : GrpcClientConfig) : Decidable (invalidConfig cfg) := by
  unfold invalidConfig; infer_instance

/-- Embedding of the gRPC AscndClient::set_api_key (src/src/client.cpp
lines 405-408): under the lock, assign config.api_key; nothing else in
the stored configuration changes. -/
def grpc_set_api_key (k : String) (cfg : GrpcClientConfig) : GrpcClientConfig :=
  { cfg with api_key := k }

/-- Embedding of the gRPC AscndClient::config (src/src/client.cpp lines
410-413): under the lock, return the stored configuration by value, a
snapshot copy independent of later mutation. -/
def grpc_config (cfg : GrpcClientConfig) : GrpcClientConfig :=
  cfg

/-- The ClientConfig of the httplib client (client.hpp lines 29-56). -/
structure HttpClientConfig where
  base_url : String := ""
  api_key : String := ""
  connection_timeout_ms : Int := 5000
  read_timeout_ms : Int := 10000
  write_timeout_ms : Int := 10000
  max_retries : Int := 3
  retry_delay_ms : Int := 100
  user_agent : String := ""
  verbose : Bool := false
deriving DecidableEq, Repr

/-- Embedding of the httplib AscndClient::set_api_key (part_007 lines
251-255, client.hpp lines 488-492): under the lock, assign
config.api_key and rebuild the http client handle; the stored
configuration changes only in its api_key field. -/
def http_set_api_key (k : String) (cfg : HttpClientConfig) : HttpClientConfig :=
  { cfg with api_key := k }

/-- Embedding of the httplib AscndClient::config (part_007 lines 257-259,
client.hpp lines 494-496): it returns const ClientConfig&, a reference
bound to the live impl_->config, taking no lock and making no copy.
Reading that reference while the client holds configuration cfg yields
cfg, so a read performed after a later mutation observes the mutated
configuration. -/
def http_config_deref (cfg : HttpClientConfig) : HttpClientConfig :=
  cfg

/-! Helper lemmas. -/

/-- The 32-bit wrap is the identity on the representable range. -/
theorem wrap32_eq_of_mem (x : Int) (h0 : -(2 ^ 31) ≤ x) (h1 : x < 2 ^ 31) :
    wrap32 x = x := by
  have h31 : (2 : Int) ^ 31 = 2147483648 := by norm_num
  have h32 : (2 : Int) ^ 32 = 4294967296 := by norm_num
  unfold wrap32
  rw [h31, h32] at *
  rw [Int.emod_eq_of_lt (by omega) (by omega)]
  omega

/-- The computed delay agrees with the mathematical product while the
product fits below 2^31. -/
theorem delay32_eq_of_no_overflow (rd : Int) (i : Nat) (h0 : 0 ≤ rd)
    (h1 : rd * 2 ^ i < 2 ^ 31) : delay32 rd i = rd * 2 ^ i := by
  unfold delay32
  apply wrap32_eq_of_mem
  · have hp : (0 : Int) ≤ rd * 2 ^ i := by positivity
    have : (0 : Int) < 2 ^ 31 := by positivity
    omega
  · exact h1

/-- Attempt count of the expected all-fail event list. -/
theorem attCount_expectedFailEvents (rd : Int) :
    ∀ (g r : Nat), attCount (expectedFailEvents rd r g) = g + 1 := by
  intro g
  induction g with
  | zero =>
    intro r
    rfl
  | succ g ih =>
    intro r
    have h := ih (r + 1)
    simp only [attCount, expectedFailEvents] at h ⊢
    simp only [List.filter_cons, REvent.isAtt, List.length_cons, if_true]
    simp only [Bool.false_eq_true, if_false]
    omega

/-- The expected all-fail event list, written as interleaved blocks. -/
theorem expectedFailEvents_eq_join (rd : Int) :
    ∀ (g r : Nat),
      expectedFailEvents rd r g =
        ((List.range' r g).map
          (fun i => [REvent.att i, REvent.sleep (delay32 rd i)])).flatten ++
        [REvent.att (r + g)] := by
  intro g
  induction g with
  | zero =>
    intro r
    simp [expectedFailEvents, List.range']
  | succ g ih =>
    intro r
    rw [show r + (g + 1) = (r + 1) + g by omega]
    simp [expectedFailEvents, List.range', ih (r + 1)]

/-- One-step unfolding of the gRPC loop at a retryable failure with
budget remaining. -/
theorem make_request_go_step {α : Type} (tr : Nat → GOutcome α) (mr : Nat)
    (rd : Int) (r gas : Nat) (lm : String) (lc : Int) (cde : StatusCode)
    (msg : String) (htr : tr r = GOutcome.fail cde msg)
    (hret : is_retryable_error cde = true) (hlt : r < mr) :
    make_request_go tr mr rd r (gas + 1) lm lc =
      ⟨REvent.att r :: REvent.sleep (delay32 rd r) ::
        (make_request_go tr mr rd (r + 1) gas msg (statusCodeInt cde)).events,
       (make_request_go tr mr rd (r + 1) gas msg (statusCodeInt cde)).result⟩ := by
  simp only [make_request_go, htr, hret, if_true, hlt, if_pos]

/-- Unfolding of the gRPC retry loop when every attempt fails with a
retryable status: with fuel g + 1 remaining and the counter at r, where
r + g = max_retries, the loop performs one attempt per remaining budget
unit with a backoff sleep between consecutive attempts, and returns the
error of the attempt at index max_retries. -/
theorem make_request_go_all_fail {α : Type} (c : Nat → StatusCode)
    (m : Nat → String) (h : ∀ i, is_retryable_error (c i) = true)
    (mr : Nat) (rd : Int) :
    ∀ (g r : Nat), r + g = mr → ∀ (lm : String) (lc : Int),
      make_request_go (α := α) (fun i => GOutcome.fail (c i) (m i)) mr rd
          r (g + 1) lm lc =
        ⟨expectedFailEvents rd r g,
          Result.error (m mr) (statusCodeInt (c mr))⟩ := by
  intro g
  induction g with
  | zero =>
    intro r hr lm lc
    have hrm : r = mr := by omega
    subst hrm
    simp [make_request_go, h r, expectedFailEvents]
  | succ g ih =>
    intro r hr lm lc
    have hlt : r < mr := by omega
    rw [make_request_go_step _ _ _ _ _ _ _ (c r) (m r) rfl (h r) hlt]
    rw [ih (r + 1) (by omega) (m r) (statusCodeInt (c r))]
    simp [expectedFailEvents]

/-- Claim C1: with max_retries = N and a transport whose every attempt
reports a retryable failure, make_request performs exactly N + 1 attempts
and returns an error Result carrying the message and numeric code of the
failure of the last attempt (index N). -/
theorem make_request_all_retryable {α : Type} (N : Nat) (rd : Int)
    (c : Nat → StatusCode) (m : Nat → String)
    (h : ∀ i, is_retryable_error (c i) = true) :
    attCount (make_request (α := α) N rd
      (fun i => GOutcome.fail (c i) (m i))).events = N + 1 ∧
    (make_request (α := α) N rd
      (fun i => GOutcome.fail (c i) (m i))).result =
        Result.error (m N) (statusCodeInt (c N)) := by
  unfold make_request
  rw [make_request_go_all_fail c m h N rd N 0 (by omega) "" 0]
  exact ⟨attCount_expectedFailEvents rd N 0, rfl⟩

/-- Claim C1 witness: three attempts for max_retries = 2 under a
transport that always reports UNAVAILABLE. -/
theorem make_request_all_retryable_witness :
    (∀ i : Nat, is_retryable_error StatusCode.UNAVAILABLE = true) ∧
    attCount (make_request (α := Unit) 2 10
      (fun _ => GOutcome.fail StatusCode.UNAVAILABLE "unavailable")).events
      = 3 ∧
    (make_request (α := Unit) 2 10
      (fun _ => GOutcome.fail StatusCode.UNAVAILABLE "unavailable")).result
      = Result.error "unavailable" 14 := by
  refine ⟨fun _ => rfl, ?_, ?_⟩
  · exact (make_request_all_retryable (α := Unit) 2 10
      (fun _ => StatusCode.UNAVAILABLE) (fun _ => "unavailable")
      (fun _ => rfl)).1
  · exact (make_request_all_retryable (α := Unit) 2 10
      (fun _ => StatusCode.UNAVAILABLE) (fun _ => "unavailable")
      (fun _ => rfl)).2

/-- Claim C2 counterexample: with retry_delay_ms = 1 and max_retries = 32
under an always-retryable transport, the sleep the engine requests
between attempt 31 and attempt 32 (event index 63 of the trace) is the
wrapped 32-bit value -2^31 milliseconds, not the 1 * 2^31 milliseconds
the claim specifies. -/
theorem backoff_wraps_at_attempt_31 :
    (make_request (α := Unit) 32 (1 : Int)
        (fun _ => GOutcome.fail StatusCode.UNAVAILABLE "u")).events.getD 63
        (REvent.att 0) =
      REvent.sleep (-(2 ^ 31)) ∧
    REvent.sleep (-(2 ^ 31) : Int) ≠ REvent.sleep ((1 : Int) * 2 ^ 31) := by
  constructor
  · decide
  · decide

/-- Claim C2 (amended): when every attempt fails retryably, the engine
sleeps exactly once between consecutive attempts, before attempt i + 1
sleeping the value of retry_delay_ms * (1 << i) computed in 32-bit
signed arithmetic, and never after the final attempt (the trace ends
with attempt max_retries); the computed value equals the specified
retry_delay_ms * 2^i whenever that product is below 2^31. -/
theorem make_request_backoff_schedule {α : Type} (N : Nat) (rd : Int)
    (c : Nat → StatusCode) (m : Nat → String)
    (h : ∀ i, is_retryable_error (c i) = true) :
    (make_request (α := α) N rd
        (fun i => GOutcome.fail (c i) (m i))).events =
      ((List.range N).map
        (fun i => [REvent.att i, REvent.sleep (delay32 rd i)])).flatten ++
      [REvent.att N] ∧
    ∀ i : Nat, 0 ≤ rd → rd * 2 ^ i < 2 ^ 31 → delay32 rd i = rd * 2 ^ i := by
  constructor
  · unfold make_request
    rw [make_request_go_all_fail c m h N rd N 0 (by omega) "" 0]
    rw [expectedFailEvents_eq_join rd N 0]
    simp [List.range_eq_range']
  · intro i h0 h1
    exact delay32_eq_of_no_overflow rd i h0 h1

/-- Claim C2 witness: with max_retries = 2 and retry_delay_ms = 10 the
trace is attempt 0, a 10 ms sleep, attempt 1, a 20 ms sleep, attempt 2,
and the no-overflow products evaluate as specified. -/
theorem make_request_backoff_schedule_witness :
    (∀ i : Nat, is_retryable_error StatusCode.UNAVAILABLE = true) ∧
    (make_request (α := Unit) 2 (10 : Int)
        (fun _ => GOutcome.fail StatusCode.UNAVAILABLE "u")).events =
      [REvent.att 0, REvent.sleep 10, REvent.att 1, REvent.sleep 20,
       REvent.att 2] ∧
    delay32 10 1 = 10 * 2 ^ 1 := by
  refine ⟨fun _ => rfl, ?_, ?_⟩
  · rw [(make_request_backoff_schedule (α := Unit) 2 10
      (fun _ => StatusCode.UNAVAILABLE) (fun _ => "u") (fun _ => rfl)).1]
    decide
  · exact (make_request_backoff_schedule (α := Unit) 2 10
      (fun _ => StatusCode.UNAVAILABLE) (fun _ => "u") (fun _ => rfl)).2
      1 (by decide) (by decide)

/-- Claim C3: the error classifier marks a status retryable exactly when
it is UNAVAILABLE, DEADLINE_EXCEEDED, RESOURCE_EXHAUSTED or ABORTED;
in particular malformed-request (INVALID_ARGUMENT), NOT_FOUND and
UNAUTHENTICATED are fatal. -/
theorem is_retryable_error_characterization :
    ∀ cc : StatusCode,
      (is_retryable_error cc = true ↔
        (cc = StatusCode.UNAVAILABLE ∨ cc = StatusCode.DEADLINE_EXCEEDED ∨
         cc = StatusCode.RESOURCE_EXHAUSTED ∨ cc = StatusCode.ABORTED)) ∧
      is_retryable_error StatusCode.INVALID_ARGUMENT = false ∧
      is_retryable_error StatusCode.NOT_FOUND = false ∧
      is_retryable_error StatusCode.UNAUTHENTICATED = false := by
  intro cc
  refine ⟨?_, rfl, rfl, rfl⟩
  cases cc <;> simp [is_retryable_error]

/-- Claim C4: if the first attempt fails with a non-retryable status the
loop performs exactly one attempt, never sleeps, and returns an error
Result carrying that failure, whatever retry budget remains. -/
theorem make_request_fatal_first_attempt {α : Type} (N : Nat) (rd : Int)
    (tr : Nat → GOutcome α) (cde : StatusCode) (msg : String)
    (h0 : tr 0 = GOutcome.fail cde msg)
    (hf : is_retryable_error cde = false) :
    (make_request N rd tr).events = [REvent.att 0] ∧
    (make_request N rd tr).result = Result.error msg (statusCodeInt cde) := by
  unfold make_request
  simp only [make_request_go, h0, hf]
  exact ⟨rfl, rfl⟩

/-- Claim C4 witness: a NOT_FOUND failure on attempt 0 with budget
max_retries = 5 gives a single attempt, no sleep, and the error Result
carrying "missing" with code 5. -/
theorem make_request_fatal_first_attempt_witness :
    ((fun _ => GOutcome.fail StatusCode.NOT_FOUND "missing" :
        Nat → GOutcome Unit) 0 =
      GOutcome.fail StatusCode.NOT_FOUND "missing") ∧
    is_retryable_error StatusCode.NOT_FOUND = false ∧
    (make_request (α := Unit) 5 100
      (fun _ => GOutcome.fail StatusCode.NOT_FOUND "missing")).events =
      [REvent.att 0] ∧
    (make_request (α := Unit) 5 100
      (fun _ => GOutcome.fail StatusCode.NOT_FOUND "missing")).result =
      Result.error "missing" 5 := by
  refine ⟨rfl, rfl, ?_, ?_⟩
  · exact (make_request_fatal_first_attempt (α := Unit) 5 100
      (fun _ => GOutcome.fail StatusCode.NOT_FOUND "missing")
      StatusCode.NOT_FOUND "missing" rfl rfl).1
  · exact (make_request_fatal_first_attempt (α := Unit) 5 100
      (fun _ => GOutcome.fail StatusCode.NOT_FOUND "missing")
      StatusCode.NOT_FOUND "missing" rfl rfl).2

/-- Claim C10: the backoff delay of line 221 is the 32-bit wrap of
retry_delay_ms * 2^i; it equals the mathematical product while the
product stays below 2^31 (which for positive delays forces i at most
30), and beyond that it wraps: at retry_delay_ms = 1 the delay for
attempt index 31 is the negative value -2^31 (exactly what the engine
then passes to sleep_for between attempts 31 and 32), and for index 32
it wraps to zero. -/
theorem delay32_int32_semantics :
    (∀ (rd : Int) (i : Nat), 0 ≤ rd → rd * 2 ^ i < 2 ^ 31 →
      delay32 rd i = rd * 2 ^ i) ∧
    delay32 1 31 = -(2 ^ 31) ∧
    delay32 1 31 < 0 ∧
    delay32 1 32 = 0 ∧
    (make_request (α := Unit) 32 (1 : Int)
        (fun _ => GOutcome.fail StatusCode.ABORTED "a")).events.getD 63
        (REvent.att 0) =
      REvent.sleep (delay32 1 31) := by
  refine ⟨delay32_eq_of_no_overflow, by decide, by decide, by decide, by decide⟩

/-- Claim C10 witness: the no-overflow case evaluated at
retry_delay_ms = 100 and attempt index 3. -/
theorem delay32_int32_semantics_witness :
    (0 : Int) ≤ 100 ∧ (100 : Int) * 2 ^ 3 < 2 ^ 31 ∧
    delay32 100 3 = 100 * 2 ^ 3 := by
  exact ⟨by decide, by decide, delay32_int32_semantics.1 100 3 (by decide) (by decide)⟩

/-- One-step unfolding of the httplib loop at a connection error with
budget remaining. -/
theorem http_loop_step (method : String) (tr : Nat → ConnAttempt)
    (mr : Nat) (rd : Int) (r gas : Nat) (lc : Int) (lm : String)
    (cc : Int) (cm : String)
    (hm : method = "POST" ∨ method = "GET")
    (htr : tr r = ConnAttempt.connErr cc cm) (hlt : r < mr) :
    http_loop method tr mr rd r (gas + 1) lc lm =
      (REvent.att r :: REvent.sleep (delay32 rd r) ::
        (http_loop method tr mr rd (r + 1) gas cc cm).1,
       (http_loop method tr mr rd (r + 1) gas cc cm).2) := by
  simp only [http_loop, htr, hlt, if_pos, hm, or_true, true_or]

/-- Unfolding of the httplib loop when the first k attempts from index r
are connection errors and the attempt at index r + k receives a
response: the loop performs those k + 1 attempts, sleeping between
consecutive ones, and exits with the response. -/
theorem http_loop_first_response (method : String) (tr : Nat → ConnAttempt)
    (mr : Nat) (rd : Int) (resp : HttpResponse)
    (hm : method = "POST" ∨ method = "GET") :
    ∀ (k r : Nat), r + k ≤ mr →
      (∀ i, i < k → ∃ cc cm, tr (r + i) = ConnAttempt.connErr cc cm) →
      tr (r + k) = ConnAttempt.response resp →
      ∀ (lc : Int) (lm : String),
        http_loop method tr mr rd r (mr + 1 - r) lc lm =
          (expectedConnEvents rd r k ++ [REvent.att (r + k)],
           LoopExit.gotResponse resp) := by
  intro k
  induction k with
  | zero =>
    intro r hr _hconn hresp lc lm
    rw [show mr + 1 - r = (mr - r) + 1 by omega]
    rw [show r + 0 = r from rfl] at hresp
    simp [http_loop, hm, hresp, expectedConnEvents]
  | succ k ih =>
    intro r hr hconn hresp lc lm
    have hlt : r < mr := by omega
    obtain ⟨cc, cm, hcc⟩ := hconn 0 (Nat.succ_pos k)
    rw [show r + 0 = r from rfl] at hcc
    rw [show mr + 1 - r = (mr + 1 - (r + 1)) + 1 by omega]
    rw [http_loop_step method tr mr rd r _ lc lm cc cm hm hcc hlt]
    have hconn2 : ∀ i, i < k → ∃ dc dm,
        tr ((r + 1) + i) = ConnAttempt.connErr dc dm := by
      intro i hi
      have := hconn (i + 1) (by omega)
      rwa [show r + (i + 1) = (r + 1) + i by omega] at this
    have hresp2 : tr ((r + 1) + k) = ConnAttempt.response resp := by
      rwa [show r + (k + 1) = (r + 1) + k by omega] at hresp
    rw [ih (r + 1) (by omega) hconn2 hresp2 cc cm]
    simp [expectedConnEvents]
    omega

/-- Attempt count of the expected connection-error event list. -/
theorem attCount_expectedConnEvents (rd : Int) :
    ∀ (k r : Nat), attCount (expectedConnEvents rd r k) = k := by
  intro k
  induction k with
  | zero =>
    intro r
    rfl
  | succ k ih =>
    intro r
    have h := ih (r + 1)
    simp only [attCount, expectedConnEvents] at h ⊢
    simp only [List.filter_cons, REvent.isAtt, List.length_cons, if_true]
    simp only [Bool.false_eq_true, if_false]
    omega

/-- Attempt count distributes over list append. -/
theorem attCount_append (l1 l2 : List REvent) :
    attCount (l1 ++ l2) = attCount l1 + attCount l2 := by
  simp [attCount, List.filter_append]

/-- Claim C5: when the attempt at index k (after k connection errors)
receives a response with a status in [200, 300) whose body fails to
decode, make_request returns an error Result carrying that success
status and the decode message "JSON parse error: " followed by the
exception text, and performs no further attempt: the run holds exactly
k + 1 attempts however much retry budget remains. -/
theorem http_decode_failure_terminal {α : Type} (method : String)
    (tr : Nat → ConnAttempt) (decode : HttpResponse → Except String α)
    (mr k : Nat) (rd : Int) (resp : HttpResponse) (e : String)
    (hm : method = "POST" ∨ method = "GET")
    (hk : k ≤ mr)
    (hconn : ∀ i, i < k → ∃ cc cm, tr i = ConnAttempt.connErr cc cm)
    (hresp : tr k = ConnAttempt.response resp)
    (hs1 : 200 ≤ resp.status) (hs2 : resp.status < 300)
    (hd : decode resp = Except.error e) :
    (http_make_request method tr decode mr rd).2 =
      Result.error ("JSON parse error: " ++ e) resp.status ∧
    attCount (http_make_request method tr decode mr rd).1 = k + 1 := by
  have hloop := http_loop_first_response method tr mr rd resp hm k 0
    (by omega) (by simpa using hconn) (by simpa using hresp) 0 ""
  simp only [Nat.sub_zero, Nat.zero_add] at hloop
  unfold http_make_request
  rw [hloop]
  simp only [if_pos (And.intro hs1 hs2), hd]
  refine ⟨by trivial, ?_⟩
  rw [attCount_append, attCount_expectedConnEvents]
  rfl

/-- Claim C5 witness: a 204 response on the first attempt whose body
fails to decode with text "bad" yields the error Result with code 204
and one single attempt, with max_retries = 3. -/
theorem http_decode_failure_terminal_witness :
    ((("GET" : String) = "POST" ∨ ("GET" : String) = "GET") ∧
      200 ≤ (204 : Int) ∧ (204 : Int) < 300) ∧
    (http_make_request "GET"
        (fun _ => ConnAttempt.response ⟨204, "oops", none⟩)
        (fun _ => (Except.error "bad" : Except String Unit)) 3 100).2 =
      Result.error ("JSON parse error: " ++ "bad") 204 ∧
    attCount (http_make_request "GET"
        (fun _ => ConnAttempt.response ⟨204, "oops", none⟩)
        (fun _ => (Except.error "bad" : Except String Unit)) 3 100).1 = 1 := by
  have h := http_decode_failure_terminal "GET"
    (fun _ => ConnAttempt.response ⟨204, "oops", none⟩)
    (fun _ => (Except.error "bad" : Except String Unit)) 3 0 100
    ⟨204, "oops", none⟩ "bad" (Or.inr rfl) (by omega)
    (fun i hi => absurd hi (Nat.not_lt_zero i)) rfl (by norm_num)
    (by norm_num) rfl
  exact ⟨⟨Or.inr rfl, by norm_num, by norm_num⟩, h.1, h.2⟩

/-- Claim C6: when the attempt at index k receives a response with a
status outside [200, 300), make_request returns an error Result whose
code is the response status and whose message follows the fallback
chain: the message field of the parsed body when present, else its
error field when present, else the raw body text; when the body does
not parse, the raw body text, or "HTTP <status>" when the body is
empty. -/
theorem http_error_response_fallback_chain {α : Type} (method : String)
    (tr : Nat → ConnAttempt) (decode : HttpResponse → Except String α)
    (mr k : Nat) (rd : Int) (resp : HttpResponse)
    (hm : method = "POST" ∨ method = "GET")
    (hk : k ≤ mr)
    (hconn : ∀ i, i < k → ∃ cc cm, tr i = ConnAttempt.connErr cc cm)
    (hresp : tr k = ConnAttempt.response resp)
    (hs : ¬(200 ≤ resp.status ∧ resp.status < 300)) :
    (http_make_request method tr decode mr rd).2 =
      Result.error
        (match resp.bodyJson with
         | some j =>
           match j.message with
           | some s => s
           | none =>
             match j.errorField with
             | some s => s
             | none => resp.bodyText
         | none =>
           if resp.bodyText = "" then "HTTP " ++ toString resp.status
           else resp.bodyText)
        resp.status := by
  have hloop := http_loop_first_response method tr mr rd resp hm k 0
    (by omega) (by simpa using hconn) (by simpa using hresp) 0 ""
  simp only [Nat.sub_zero, Nat.zero_add] at hloop
  unfold http_make_request
  rw [hloop]
  simp only [if_neg hs]
  rfl

/-- Claim C6 witness: a 404 response whose body parses with neither a
message nor an error field falls back to the raw body text; applied on
the first attempt with max_retries = 2. -/
theorem http_error_response_fallback_chain_witness :
    ((("POST" : String) = "POST" ∨ ("POST" : String) = "POST") ∧
      ¬(200 ≤ (404 : Int) ∧ (404 : Int) < 300)) ∧
    (http_make_request "POST"
        (fun _ => ConnAttempt.response ⟨404, "raw body", some ⟨none, none⟩⟩)
        (fun _ => (Except.error "x" : Except String Unit)) 2 50).2 =
      Result.error "raw body" 404 := by
  have h := http_error_response_fallback_chain "POST"
    (fun _ => ConnAttempt.response ⟨404, "raw body", some ⟨none, none⟩⟩)
    (fun _ => (Except.error "x" : Except String Unit)) 2 0 50
    ⟨404, "raw body", some ⟨none, none⟩⟩ (Or.inl rfl) (by omega)
    (fun i hi => absurd hi (Nat.not_lt_zero i)) rfl (by norm_num)
  exact ⟨⟨Or.inl rfl, by norm_num⟩, h⟩

/-- Claim C7: constructing the Impl with an invalid configuration (empty
server address, non-positive connection or request timeout, negative
max_retries or retry_delay_ms) fails during validation, before the
channel is built, producing no client state at all; every other
configuration (max_retries = 0 and retry_delay_ms = 0 included)
constructs a fully initialized state without error. -/
theorem construct_validates_eagerly :
    ∀ cfg : GrpcClientConfig,
      (invalidConfig cfg → ∃ e, Impl.construct cfg = Except.error e) ∧
      (¬ invalidConfig cfg →
        Impl.construct cfg = Except.ok ⟨cfg, true⟩) := by
  intro cfg
  constructor
  · intro h
    unfold Impl.construct GrpcClientConfig.validate
    split_ifs with h1 h2 h3 h4 h5
    · exact ⟨_, rfl⟩
    · exact ⟨_, rfl⟩
    · exact ⟨_, rfl⟩
    · exact ⟨_, rfl⟩
    · exact ⟨_, rfl⟩
    · refine absurd h ?_
      simp only [invalidConfig, not_or]
      exact ⟨h1, h2, h3, h4, h5⟩
  · intro h
    unfold Impl.construct GrpcClientConfig.validate
    split_ifs with h1 h2 h3 h4 h5
    · exact absurd (Or.inl h1) h
    · exact absurd (Or.inr (Or.inl h2)) h
    · exact absurd (Or.inr (Or.inr (Or.inl h3))) h
    · exact absurd (Or.inr (Or.inr (Or.inr (Or.inl h4)))) h
    · exact absurd (Or.inr (Or.inr (Or.inr (Or.inr h5)))) h
    · rfl

/-- Claim C7 witness: the empty server address fails construction, and a
minimal valid configuration with max_retries = 0 and retry_delay_ms = 0
constructs the fully initialized state. -/
theorem construct_validates_eagerly_witness :
    invalidConfig { server_address := "" } ∧
    (∃ e, Impl.construct { server_address := "" } = Except.error e) ∧
    ¬ invalidConfig
      { server_address := "localhost:50051", max_retries := 0,
        retry_delay_ms := 0 } ∧
    Impl.construct
      { server_address := "localhost:50051", max_retries := 0,
        retry_delay_ms := 0 } =
      Except.ok
        ⟨{ server_address := "localhost:50051", max_retries := 0,
           retry_delay_ms := 0 }, true⟩ := by
  refine ⟨by decide, ?_, by decide, ?_⟩
  · exact (construct_validates_eagerly _).1 (by decide)
  · exact (construct_validates_eagerly _).2 (by decide)

/-- Claim C8 counterexample: in the httplib implementation (part_007
lines 257-259 and client.hpp lines 494-496) config() returns a const
reference to the live stored configuration; reading a previously
obtained config() result after set_api_key("new-key") observes api_key
"new-key" instead of the "old-key" an unchanged snapshot would keep. -/
theorem http_config_result_observes_mutation :
    (http_config_deref (http_set_api_key "new-key"
        { base_url := "https://api.ascnd.gg", api_key := "old-key" })).api_key
      = "new-key" ∧
    (http_config_deref
        { base_url := "https://api.ascnd.gg", api_key := "old-key" }).api_key
      = "old-key" ∧
    ("new-key" : String) ≠ "old-key" := by
  refine ⟨rfl, rfl, by decide⟩

/-- Claim C8 (amended): in the gRPC implementation config() returns a
snapshot copy under the lock and set_api_key(k) changes only the
credential, so every later config() call returns the construction-time
configuration with api_key replaced by k; in the httplib implementation
config() returns a const reference to the live configuration, so a read
through it after set_api_key(k) observes api_key = k. -/
theorem config_snapshot_semantics :
    ∀ (cfg : GrpcClientConfig) (hcfg : HttpClientConfig) (k : String),
      grpc_config (grpc_set_api_key k cfg) = { cfg with api_key := k } ∧
      (grpc_config (grpc_set_api_key k cfg)).api_key = k ∧
      (grpc_set_api_key k cfg).server_address = cfg.server_address ∧
      (grpc_set_api_key k cfg).use_ssl = cfg.use_ssl ∧
      (grpc_set_api_key k cfg).connection_timeout_ms =
        cfg.connection_timeout_ms ∧
      (grpc_set_api_key k cfg).request_timeout_ms = cfg.request_timeout_ms ∧
      (grpc_set_api_key k cfg).max_retries = cfg.max_retries ∧
      (grpc_set_api_key k cfg).retry_delay_ms = cfg.retry_delay_ms ∧
      (grpc_set_api_key k cfg).user_agent = cfg.user_agent ∧
      (grpc_set_api_key k cfg).verbose = cfg.verbose ∧
      (http_config_deref (http_set_api_key k hcfg)).api_key = k := by
  intro cfg hcfg k
  exact ⟨rfl, rfl, rfl, rfl, rfl, rfl, rfl, rfl, rfl, rfl, rfl⟩

end Ascnd
